/-
Verification of the double-entry accounting core of the Accountant
repository (Django app `accounting`: models.py, services.py).

Shallow embedding conventions:
* `Decimal` amounts (2 decimal places) are modelled as `ℚ`.
* Dates are modelled as `ℕ` encoded `year * 1000 + dayOfYear`
  (`dayOfYear < 1000`), so the natural order on `ℕ` is the date order and
  `d / 1000` recovers the calendar year used by
  `JournalEntry.generate_entry_number`.
* The database is an explicit record of lists of rows; Django querysets
  become list filters/joins; `transaction.atomic` becomes `Except`:
  an `.error` result means the transaction rolled back and the caller's
  database state is unchanged.
* Python exceptions (`ValidationError`, `ValueError`, `TypeError`,
  `IntegrityError`, `DoesNotExist`) become the `PyError` inductive.
  Interpolated values inside error message strings are elided; the
  message identifies which check fired.
* Wall-clock fields (`posted_at`, `created_at`, `updated_at`) are not
  modelled: no claim mentions them.
-/
import Mathlib

namespace Accounting

/-- Money amounts: Python `Decimal` with 2 decimal places. -/
abbrev Amount := ℚ

/-- Dates: `year * 1000 + dayOfYear` with `dayOfYear < 1000`. -/
abbrev Date := ℕ

/-- `date.year` as used by `generate_entry_number`. -/
def Date.year (d : Date) : ℕ := d / 1000

/-- `AccountType` choices from models.py. -/
inductive AccountType where
  | asset | liability | equity | revenue | expense
deriving DecidableEq, Repr

/-- `opening_balance_type` choices (`debit`/`credit`). -/
inductive BalanceSide where
  | debit | credit
deriving DecidableEq, Repr

/-- `JournalEntry.STATUS_CHOICES`. -/
inductive EntryStatus where
  | draft | posted | cancelled
deriving DecidableEq, Repr

/-- `accounting.models.Account` (financially relevant fields). -/
structure Account where
  id : ℕ
  school : ℕ
  code : String
  name : String
  name_arabic : String := ""
  account_type : AccountType
  parent : Option ℕ := none
  is_active : Bool := true
  is_system : Bool := false
  allow_manual_entries : Bool := true
  opening_balance : Amount := 0
  opening_balance_type : BalanceSide := .debit
  current_balance : Amount := 0
deriving DecidableEq, Repr

/-- `accounting.models.FiscalYear`. -/
structure FiscalYear where
  id : ℕ
  school : ℕ
  name : String
  start_date : Date
  end_date : Date
  is_active : Bool := true
  is_closed : Bool := false
deriving DecidableEq, Repr

/-- `accounting.models.JournalEntry` (header row). -/
structure JournalEntry where
  id : ℕ
  school : ℕ
  fiscal_year : ℕ
  entry_number : String
  date : Date
  reference : String := ""
  description : String := ""
  status : EntryStatus := .draft
  total_debit : Amount := 0
  total_credit : Amount := 0
  created_by : Option ℕ := none
  posted_by : Option ℕ := none
deriving DecidableEq, Repr

/-- `accounting.models.JournalEntryLine`.  Note: the `teacher` foreign key
is commented out in models.py ("Accountant mode - teacher removed"), so
the model has no `teacher` field. -/
structure JournalEntryLine where
  id : ℕ
  journal_entry : ℕ
  account : ℕ
  description : String := ""
  debit_amount : Amount := 0
  credit_amount : Amount := 0
  student : Option ℕ := none
  line_number : ℕ := 1
deriving DecidableEq, Repr

/-- The persistent store: one list of rows per table. -/
structure DB where
  fiscal_years : List FiscalYear := []
  accounts : List Account := []
  entries : List JournalEntry := []
  lines : List JournalEntryLine := []
deriving DecidableEq, Repr

/-- Python exception kinds raised by the modelled code. -/
inductive PyError where
  | validationError (msg : String)
  | valueError (msg : String)
  | typeError (msg : String)
  | integrityError (msg : String)
  | doesNotExist
deriving DecidableEq, Repr

/-- `FiscalYear.objects.get(pk=...)` (FK dereference). -/
def DB.findFY (db : DB) (i : ℕ) : Option FiscalYear :=
  db.fiscal_years.find? (fun f => f.id == i)

/-- `Account.objects.get(pk=...)` (FK dereference). -/
def DB.findAccount (db : DB) (i : ℕ) : Option Account :=
  db.accounts.find? (fun a => a.id == i)

/-- `JournalEntry.objects.get(pk=...)`. -/
def DB.findEntry (db : DB) (i : ℕ) : Option JournalEntry :=
  db.entries.find? (fun e => e.id == i)

/-- Autoincrement primary key for a new entry row. -/
def DB.freshEntryId (db : DB) : ℕ :=
  (db.entries.map (·.id)).foldr max 0 + 1

/-- Autoincrement primary key for a new line row. -/
def DB.freshLineId (db : DB) : ℕ :=
  (db.lines.map (·.id)).foldr max 0 + 1

/-- Autoincrement primary key for a new account row. -/
def DB.freshAccountId (db : DB) : ℕ :=
  (db.accounts.map (·.id)).foldr max 0 + 1

/-- Replace the stored row of an entry (`entry.save()` on an existing pk). -/
def DB.saveEntry (db : DB) (e : JournalEntry) : DB :=
  { db with entries := db.entries.map (fun o => if o.id == e.id then e else o) }

/-! ### String machinery

Models of the database's byte-wise string collation (used by
`order_by('entry_number')` / `order_by('-entry_number')`), of Python's
string slicing, `int()` on digit strings, `startswith`, and `"%06d"`
formatting, all over `String.data : List Char`. -/

/-- Byte-wise lexicographic `≤` on character lists: the model of the
database collation used for `CharField` ordering. -/
def lexLeB : List Char → List Char → Bool
  | [], _ => true
  | _ :: _, [] => false
  | a :: as, b :: bs =>
    if a.toNat < b.toNat then true
    else if b.toNat < a.toNat then false
    else lexLeB as bs

/-- Strict byte-wise lexicographic order on strings. -/
def strLt (s t : String) : Bool := !lexLeB t.data s.data

/-- `entry_number__startswith=prefix` (SQL `LIKE 'prefix%'`). -/
def strStartsWith (s p : String) : Bool := p.data.isPrefixOf s.data

/-- `order_by('-entry_number').first()` over a list of strings: the
maximum under the collation (entry numbers are unique, so ties are
impossible). -/
def maxStr? : List String → Option String
  | [] => none
  | s :: rest => some (rest.foldl (fun acc t => if strLt acc t then t else acc) s)

/-- The ASCII digit character of `n % 10`. -/
def natDigitChar (n : ℕ) : Char := Char.ofNat (48 + n % 10)

/-- The `k` low-order decimal digits of `n`, most significant first
(zero-padded). -/
def padDigits : ℕ → ℕ → List Char
  | 0, _ => []
  | k + 1, n => natDigitChar (n / 10 ^ k) :: padDigits k n

/-- Python `"%06d" % n`: zero-padded to at least six digits. -/
def fmt06 (n : ℕ) : String :=
  if n < 1000000 then ⟨padDigits 6 n⟩ else toString n

/-- Python `int()` on a decimal-digit string (behaviour on non-digit
input is irrelevant: every use is guarded by a digits hypothesis). -/
def toNatDigits (l : List Char) : ℕ :=
  l.foldl (fun a c => a * 10 + (c.toNat - 48)) 0

/-- Python `abs()` on `Decimal`, written so that it evaluates by kernel
reduction (Mathlib's `|.|` on `ℚ` does not). -/
def pyAbs (x : ℚ) : ℚ := if x < 0 then -x else x

/-- `pyAbs` is the absolute value. -/
theorem pyAbs_eq_abs (x : ℚ) : pyAbs x = |x| := by
  unfold pyAbs
  rcases lt_or_le x 0 with h | h
  · rw [if_pos h, abs_of_neg h]
  · rw [if_neg (not_lt.mpr h), abs_of_nonneg h]

/-! ### Model-layer operations (accounting/models.py) -/

/-- Is the balance of this account type a debit balance?
(`account_type in [AccountType.ASSET, AccountType.EXPENSE]`). -/
def AccountType.isDebitNormal : AccountType → Bool
  | .asset | .expense => true
  | _ => false

/-- The boolean condition of the queryset
`self.journal_lines.filter(journal_entry__status='posted',
journal_entry__fiscal_year__school=self.school)` (optionally
`journal_entry__date__lte=as_of_date`) for one line. -/
def postedLineFor (db : DB) (a : Account) (as_of : Option Date)
    (l : JournalEntryLine) : Bool :=
  l.account == a.id &&
    match db.findEntry l.journal_entry with
    | none => false
    | some e =>
      e.status == .posted &&
      (match db.findFY e.fiscal_year with
       | none => false
       | some f => f.school == a.school) &&
      (match as_of with
       | none => true
       | some d => e.date ≤ d)

/-- `Account.get_balance` (models.py lines 90-116). -/
def Account.get_balance (a : Account) (db : DB) (as_of : Option Date := none) :
    Amount :=
  let journal_lines := db.lines.filter (postedLineFor db a as_of)
  let debits := (journal_lines.map (·.debit_amount)).sum
  let credits := (journal_lines.map (·.credit_amount)).sum
  let debits := if a.opening_balance_type = .debit then debits + a.opening_balance else debits
  let credits := if a.opening_balance_type = .debit then credits else credits + a.opening_balance
  if a.account_type.isDebitNormal then debits - credits else credits - debits

/-- `Account.update_current_balance`. -/
def Account.update_current_balance (a : Account) (db : DB) : DB :=
  { db with accounts := db.accounts.map (fun o =>
      if o.id == a.id then { o with current_balance := a.get_balance db } else o) }

/-- `JournalEntry.calculate_totals`: sums over the entry's stored lines. -/
def DB.totalsOf (db : DB) (e : JournalEntry) : Amount × Amount :=
  let ls := db.lines.filter (fun l => l.journal_entry == e.id)
  ((ls.map (·.debit_amount)).sum, (ls.map (·.credit_amount)).sum)

/-- `JournalEntry.clean` (models.py lines 185-206).  Returns the entry
with recomputed totals; raises `ValidationError` as in the source.  The
`self.fiscal_year` dereference of a dangling foreign key becomes
`DoesNotExist`. -/
def JournalEntry.clean (e : JournalEntry) (db : DB) :
    Except PyError JournalEntry :=
  let e := { e with total_debit := (db.totalsOf e).1,
                    total_credit := (db.totalsOf e).2 }
  if pyAbs (e.total_debit - e.total_credit) > (1 : ℚ) / 100 then
    .error (.validationError "Journal entry must balance")
  else
    match db.findFY e.fiscal_year with
    | none => .error .doesNotExist
    | some fy =>
      if e.date < fy.start_date ∨ e.date > fy.end_date then
        .error (.validationError "Entry date must be within fiscal year")
      else if e.id ≠ 0 ∧ e.status = .posted then
        match db.findEntry e.id with
        | none => .error .doesNotExist
        | some old =>
          if old.status = .posted then
            .error (.validationError "Cannot modify posted journal entries")
          else .ok e
      else .ok e

/-- `JournalEntry.post` (models.py lines 208-223): refuses an already
posted entry, re-validates, saves status/posted_by, then refreshes the
cached balance of every account touched by the entry's lines. -/
def JournalEntry.post (e : JournalEntry) (user : ℕ) (db : DB) :
    Except PyError (DB × JournalEntry) :=
  if e.status = .posted then
    .error (.validationError "Entry is already posted")
  else
    match e.clean db with
    | .error err => .error err
    | .ok e0 =>
      let e1 := { e0 with status := .posted, posted_by := some user }
      let db := db.saveEntry e1
      let touched :=
        (db.lines.filter (fun l => l.journal_entry == e1.id)).map (·.account)
      let db := touched.foldl (fun acc i =>
        match acc.findAccount i with
        | some a => a.update_current_balance acc
        | none => acc) db
      .ok (db, e1)

/-- `JournalEntry.generate_entry_number` (models.py lines 225-239):
prefix `JE` + fiscal year's start-date year; take the entry with the
largest `entry_number` among those starting with the prefix (a global,
not per-school, query), parse its numeric suffix, add one (or start at
1), format `%06d`. -/
def JournalEntry.generate_entry_number (e : JournalEntry) (fy : FiscalYear)
    (db : DB) : JournalEntry :=
  if e.entry_number ≠ "" then e
  else
    let pre := "JE" ++ toString fy.start_date.year
    let nums := (db.entries.map (·.entry_number)).filter (fun s => strStartsWith s pre)
    let new_num : ℕ :=
      match maxStr? nums with
      | some last => toNatDigits (last.data.drop pre.length) + 1
      | none => 1
    { e with entry_number := pre ++ fmt06 new_num }

/-- `JournalEntryLine.clean` (models.py lines 277-289). -/
def JournalEntryLine.clean (l : JournalEntryLine) (db : DB) :
    Except PyError Unit := do
  if l.debit_amount > 0 ∧ l.credit_amount > 0 then
    throw (.validationError "Line cannot have both debit and credit amounts")
  if l.debit_amount = 0 ∧ l.credit_amount = 0 then
    throw (.validationError "Line must have either debit or credit amount")
  match db.findAccount l.account with
  | some a =>
    if !a.allow_manual_entries then
      throw (.validationError "Account does not allow manual entries")
    else pure ()
  | none => pure ()

/-! ### AccountingService (accounting/services.py) -/

/-- One element of `lines_data`: the dict consumed by
`create_journal_entry` via `line_data['account']`, `.get('debit_amount',
0)`, `.get('credit_amount', 0)`, `.get('description', '')`,
`.get('student')`, `.get('teacher')`.  The account is carried by id. -/
structure LineData where
  account : ℕ
  debit_amount : Amount := 0
  credit_amount : Amount := 0
  description : String := ""
  student : Option ℕ := none
  teacher : Option ℕ := none
deriving DecidableEq, Repr

/-- The field names `JournalEntryLine(**kwargs)` accepts: the model's
declared fields (models.py lines 242-266; `teacher` is commented out). -/
def journalEntryLineFieldNames : List String :=
  ["id", "journal_entry", "account", "description", "debit_amount",
   "credit_amount", "student", "line_number", "created_at"]

/-- The keyword-argument names `AccountingService.create_journal_entry`
passes to `JournalEntryLine.objects.create` (services.py lines 47-56). -/
def serviceLineKwargNames : List String :=
  ["journal_entry", "account", "debit_amount", "credit_amount",
   "description", "student", "teacher", "line_number"]

/-- `JournalEntryLine.objects.create(**kwargs)`: Django's
`Model.__init__` raises `TypeError` when a keyword argument does not
match a declared field; otherwise the row is inserted. -/
def djangoCreateLine (db : DB) (kwargNames : List String)
    (row : JournalEntryLine) : Except PyError DB :=
  if kwargNames.all (journalEntryLineFieldNames.contains ·) then
    .ok { db with lines := db.lines ++ [row] }
  else
    .error (.typeError "JournalEntryLine() got unexpected keyword arguments")

/-- The `for idx, line_data in enumerate(lines_data, start=1)` loop of
`create_journal_entry`. -/
def createLines (entryId : ℕ) : DB → ℕ → List LineData → Except PyError DB
  | db, _, [] => .ok db
  | db, idx, ld :: rest => do
    let row : JournalEntryLine :=
      { id := db.freshLineId, journal_entry := entryId, account := ld.account,
        debit_amount := ld.debit_amount, credit_amount := ld.credit_amount,
        description := ld.description, student := ld.student,
        line_number := idx }
    let db ← djangoCreateLine db serviceLineKwargNames row
    createLines entryId db (idx + 1) rest

/-- `AccountingService.create_journal_entry` (services.py lines 13-64).
The surrounding `transaction.atomic()` is the `Except`: an `.error`
result means full rollback, the caller's database is unchanged. -/
def create_journal_entry (db : DB) (school : ℕ) (fiscal_year : FiscalYear)
    (date : Date) (description : String) (lines_data : List LineData)
    (reference : String := "") (user : Option ℕ := none)
    (auto_post : Bool := false) : Except PyError (DB × JournalEntry) := do
  let entry : JournalEntry :=
    { id := db.freshEntryId, school := school, fiscal_year := fiscal_year.id,
      entry_number := "", date := date, reference := reference,
      description := description, status := .draft, created_by := user }
  let db := { db with entries := db.entries ++ [entry] }
  let entry := entry.generate_entry_number fiscal_year db
  let db := db.saveEntry entry
  let db ← createLines entry.id db 1 lines_data
  let entry ← entry.clean db
  match auto_post, user with
  | true, some u => entry.post u db
  | _, _ => pure (db, entry)

/-- A billing invoice as consumed by `post_invoice_to_ledger`. -/
structure Invoice where
  school : ℕ
  invoice_number : String
  customer_name : String := ""
  student : Option ℕ := none
  issue_date : Date
  total_amount : Amount
  total_taxable_amount : Amount
  total_vat : Amount
deriving DecidableEq, Repr

/-- A billing payment as consumed by `post_payment_to_ledger`. -/
structure Payment where
  invoice : Invoice
  amount : Amount
  payment_method : String
  payment_date : Date
  transaction_id : Option String := none
deriving DecidableEq, Repr

/-- `FiscalYear.objects.filter(school=..., is_active=True,
start_date__lte=d, end_date__gte=d).first()`: `first()` applies the
model's default ordering `['-start_date']`. -/
def activeFYFor (db : DB) (school : ℕ) (d : Date) : Option FiscalYear :=
  ((db.fiscal_years.filter (fun f =>
      f.school == school && f.is_active && f.start_date ≤ d && d ≤ f.end_date)).insertionSort
    (fun f g => g.start_date ≤ f.start_date)).head?

/-- `Account.objects.filter(school=..., code=..., account_type=...).first()`
((school, code) is unique, so `find?` is the first match). -/
def accountByCode (db : DB) (school : ℕ) (code : String)
    (t : AccountType) : Option Account :=
  db.accounts.find? (fun a =>
    a.school == school && a.code == code && a.account_type == t)

/-- `AccountingService.post_invoice_to_ledger` (services.py lines
66-144).  The `entry.invoice = invoice` assignment sets a plain Python
attribute (the `invoice` field is commented out of the model), so the
following `entry.save()` persists nothing new. -/
def post_invoice_to_ledger (db : DB) (invoice : Invoice) (user : ℕ) :
    Except PyError (DB × JournalEntry) := do
  let school := invoice.school
  let fiscal_year ←
    match activeFYFor db school invoice.issue_date with
    | none => throw (.valueError "No active fiscal year found for invoice date")
    | some f => pure f
  let accounts_receivable := accountByCode db school "1200" .asset
  let revenue_account := accountByCode db school "4000" .revenue
  let vat_payable := accountByCode db school "2100" .liability
  match accounts_receivable, revenue_account, vat_payable with
  | some ar, some rev, some vat =>
    let lines : List LineData :=
      [ { account := ar.id, debit_amount := invoice.total_amount,
          credit_amount := 0, description := "Invoice",
          student := invoice.student },
        { account := rev.id, debit_amount := 0,
          credit_amount := invoice.total_taxable_amount,
          description := "Revenue - Invoice", student := invoice.student },
        { account := vat.id, debit_amount := 0,
          credit_amount := invoice.total_vat,
          description := "VAT Collected - Invoice" } ]
    let (db, entry) ← create_journal_entry db school fiscal_year
      invoice.issue_date ("Invoice " ++ invoice.invoice_number) lines
      invoice.invoice_number (some user) true
    let db := db.saveEntry entry
    pure (db, entry)
  | _, _, _ =>
    throw (.valueError "Required accounts not found. Please set up chart of accounts.")

/-- `AccountingService.post_payment_to_ledger` (services.py lines
146-222). -/
def post_payment_to_ledger (db : DB) (payment : Payment) (user : ℕ) :
    Except PyError (DB × JournalEntry) := do
  let invoice := payment.invoice
  let school := invoice.school
  let fiscal_year ←
    match activeFYFor db school payment.payment_date with
    | none => throw (.valueError "No active fiscal year found for payment date")
    | some f => pure f
  let cash_account :=
    if payment.payment_method = "cash" ∨ payment.payment_method = "card" then
      accountByCode db school "1100" .asset
    else
      accountByCode db school "1110" .asset
  let accounts_receivable := accountByCode db school "1200" .asset
  match cash_account, accounts_receivable with
  | some cash, some ar =>
    let lines : List LineData :=
      [ { account := cash.id, debit_amount := payment.amount,
          credit_amount := 0, description := "Payment received",
          student := invoice.student },
        { account := ar.id, debit_amount := 0,
          credit_amount := payment.amount, description := "Payment applied",
          student := invoice.student } ]
    let (db, entry) ← create_journal_entry db school fiscal_year
      payment.payment_date ("Payment - Invoice " ++ invoice.invoice_number)
      lines (payment.transaction_id.getD invoice.invoice_number)
      (some user) true
    let db := db.saveEntry entry
    pure (db, entry)
  | _, _ => throw (.valueError "Required accounts not found")

/-! ### FinancialReportService (services.py lines 225-437) -/

/-- One row of the trial-balance list (the source row also carries the
account object and its display strings; the financially relevant
fields are kept). -/
structure TBRow where
  code : String
  name : String
  account_type : AccountType
  debit_balance : Amount
  credit_balance : Amount
deriving DecidableEq, Repr

/-- The dict returned by `generate_trial_balance` (the `fiscal_year` /
`as_of_date` pass-through fields are omitted). -/
structure TrialBalance where
  trial_balance : List TBRow
  total_debits : Amount
  total_credits : Amount
  is_balanced : Bool
deriving DecidableEq, Repr

/-- The per-account body of the trial-balance loop (services.py lines
243-264): skip zero balances, place the balance in the debit or credit
column by the account type's sign convention. -/
def tbRowOf (db : DB) (as_of : Option Date) (a : Account) : Option TBRow :=
  let balance := a.get_balance db as_of
  if balance ≠ 0 then
    if a.account_type.isDebitNormal then
      some { code := a.code, name := a.name, account_type := a.account_type,
             debit_balance := if balance > 0 then balance else 0,
             credit_balance := if balance < 0 then pyAbs balance else 0 }
    else
      some { code := a.code, name := a.name, account_type := a.account_type,
             debit_balance := if balance < 0 then pyAbs balance else 0,
             credit_balance := if balance > 0 then balance else 0 }
  else none

/-- `FinancialReportService.generate_trial_balance` (services.py lines
228-273).  The loop appends one row per nonzero-balance account and
accumulates the two column totals; that is the same as mapping the row
body over the accounts and summing the emitted columns. -/
def generate_trial_balance (db : DB) (school : ℕ)
    (as_of : Option Date := none) : TrialBalance :=
  let accounts := (db.accounts.filter (fun a =>
      a.school == school && a.is_active)).insertionSort
    (fun a b => lexLeB a.code.data b.code.data = true)
  let rows := accounts.filterMap (tbRowOf db as_of)
  let total_debits := (rows.map (·.debit_balance)).sum
  let total_credits := (rows.map (·.credit_balance)).sum
  { trial_balance := rows, total_debits := total_debits,
    total_credits := total_credits,
    is_balanced := pyAbs (total_debits - total_credits) < (1 : ℚ) / 100 }

/-- One row of the account-ledger report. -/
structure LedgerRow where
  date : Date
  entry_number : String
  description : String
  reference : String
  debit : Amount
  credit : Amount
  balance : Amount
deriving DecidableEq, Repr

/-- The dict returned by `generate_ledger_report` (`start_date` /
`end_date` pass-through fields omitted). -/
structure LedgerReport where
  opening_balance : Amount
  opening_balance_type : BalanceSide
  ledger_entries : List LedgerRow
  closing_balance : Amount
deriving DecidableEq, Repr

/-- `order_by('journal_entry__date', 'journal_entry__entry_number')`:
the sort key on the owning entry. -/
def entryKeyLe (e1 e2 : JournalEntry) : Bool :=
  e1.date < e2.date ||
    (e1.date == e2.date && lexLeB e1.entry_number.data e2.entry_number.data)

/-- The queryset of `generate_ledger_report`: the account's posted
lines joined (`select_related`) with their owning entries, optionally
date-bounded, ordered by (entry date, entry number). -/
def ledgerJoin (db : DB) (a : Account) (sd ed : Option Date) :
    List (JournalEntryLine × JournalEntry) :=
  let joined := db.lines.filterMap (fun l =>
    if l.account == a.id then
      (db.findEntry l.journal_entry).map (fun e => (l, e))
    else none)
  let joined := joined.filter (fun p =>
    p.2.status == .posted &&
    (match sd with | none => true | some d => decide (p.2.date ≥ d)) &&
    (match ed with | none => true | some d => decide (p.2.date ≤ d)))
  joined.insertionSort (fun p q => entryKeyLe p.2 q.2 = true)

/-- The per-line increment of the ledger's running balance (services.py
lines 414-417). -/
def ledgerDelta (t : AccountType) (l : JournalEntryLine) : Amount :=
  if t.isDebitNormal then l.debit_amount - l.credit_amount
  else l.credit_amount - l.debit_amount

/-- The `for line in journal_lines` loop of `generate_ledger_report`:
threads the running balance, emits one row per line, and returns the
final running balance. -/
def ledgerLoop (t : AccountType) :
    Amount → List (JournalEntryLine × JournalEntry) → List LedgerRow × Amount
  | bal, [] => ([], bal)
  | bal, (l, e) :: rest =>
    let bal' := bal + ledgerDelta t l
    let (rows, fin) := ledgerLoop t bal' rest
    ({ date := e.date, entry_number := e.entry_number,
       description := if l.description ≠ "" then l.description else e.description,
       reference := e.reference, debit := l.debit_amount,
       credit := l.credit_amount, balance := bal' } :: rows, fin)

/-- `FinancialReportService.generate_ledger_report` (services.py lines
395-437). -/
def generate_ledger_report (db : DB) (a : Account)
    (sd ed : Option Date := none) : LedgerReport :=
  let running := if a.opening_balance_type = .debit then a.opening_balance
                 else -a.opening_balance
  let (rows, fin) := ledgerLoop a.account_type running (ledgerJoin db a sd ed)
  { opening_balance := a.opening_balance,
    opening_balance_type := a.opening_balance_type,
    ledger_entries := rows, closing_balance := fin }

/-! ### ChartOfAccountsSetup (services.py lines 440-505) -/

/-- One element of the `accounts_data` literal. -/
structure DefaultAccountRow where
  code : String
  name : String
  name_arabic : String
  account_type : AccountType
  parentCode : Option String
deriving DecidableEq, Repr

/-- The `accounts_data` list of `create_default_accounts` (every row
has `'system': True`). -/
def defaultAccountsData : List DefaultAccountRow :=
  [ ⟨"1000", "Assets", "الأصول", .asset, none⟩,
    ⟨"1100", "Cash", "النقدية", .asset, some "1000"⟩,
    ⟨"1110", "Bank Account", "الحساب البنكي", .asset, some "1000"⟩,
    ⟨"1200", "Accounts Receivable", "الذمم المدينة", .asset, some "1000"⟩,
    ⟨"1300", "Inventory", "المخزون", .asset, some "1000"⟩,
    ⟨"1500", "Fixed Assets", "الأصول الثابتة", .asset, some "1000"⟩,
    ⟨"2000", "Liabilities", "الخصوم", .liability, none⟩,
    ⟨"2100", "VAT Payable", "ضريبة القيمة المضافة المستحقة", .liability, some "2000"⟩,
    ⟨"2200", "Accounts Payable", "الذمم الدائنة", .liability, some "2000"⟩,
    ⟨"2300", "Salaries Payable", "الرواتب المستحقة", .liability, some "2000"⟩,
    ⟨"2400", "Loans Payable", "القروض المستحقة", .liability, some "2000"⟩,
    ⟨"3000", "Equity", "حقوق الملكية", .equity, none⟩,
    ⟨"3100", "Capital", "رأس المال", .equity, some "3000"⟩,
    ⟨"3200", "Retained Earnings", "الأرباح المحتجزة", .equity, some "3000"⟩,
    ⟨"4000", "Revenue", "الإيرادات", .revenue, none⟩,
    ⟨"4100", "Tuition Fees", "الرسوم الدراسية", .revenue, some "4000"⟩,
    ⟨"4200", "Transport Fees", "رسوم النقل", .revenue, some "4000"⟩,
    ⟨"4300", "Hostel Fees", "رسوم السكن", .revenue, some "4000"⟩,
    ⟨"4400", "Other Income", "الدخل الآخر", .revenue, some "4000"⟩,
    ⟨"5000", "Expenses", "المصروفات", .expense, none⟩,
    ⟨"5100", "Salaries Expense", "مصروف الرواتب", .expense, some "5000"⟩,
    ⟨"5200", "Rent Expense", "مصروف الإيجار", .expense, some "5000"⟩,
    ⟨"5300", "Utilities Expense", "مصروف المرافق", .expense, some "5000"⟩,
    ⟨"5400", "Supplies Expense", "مصروف اللوازم", .expense, some "5000"⟩,
    ⟨"5500", "Maintenance Expense", "مصروف الصيانة", .expense, some "5000"⟩,
    ⟨"5600", "Marketing Expense", "مصروف التسويق", .expense, some "5000"⟩ ]

/-- `Account.objects.create(...)`: insertion enforcing the
`unique_together` constraints `(school, code)` and `(school, name)`;
a duplicate raises `IntegrityError`. -/
def djangoCreateAccount (db : DB) (a : Account) : Except PyError DB :=
  if db.accounts.any (fun o =>
      o.school == a.school && (o.code == a.code || o.name == a.name)) then
    .error (.integrityError "UNIQUE constraint failed: accounting_account")
  else .ok { db with accounts := db.accounts ++ [a] }

/-- The `for acc_data in accounts_data` loop of
`create_default_accounts`, threading the `created_accounts` dict. -/
def createDefaultsLoop (school : ℕ) :
    DB → List (String × Account) → List DefaultAccountRow →
    Except PyError (DB × List (String × Account))
  | db, created, [] => .ok (db, created)
  | db, created, d :: rest => do
    let parent : Option ℕ :=
      match d.parentCode with
      | some pc => (created.find? (fun p => p.1 == pc)).map (·.2.id)
      | none => none
    let a : Account :=
      { id := db.freshAccountId, school := school, code := d.code,
        name := d.name, name_arabic := d.name_arabic,
        account_type := d.account_type, parent := parent,
        is_system := true }
    let db ← djangoCreateAccount db a
    createDefaultsLoop school db (created ++ [(d.code, a)]) rest

/-- `ChartOfAccountsSetup.create_default_accounts` (services.py lines
443-505), inside `transaction.atomic()`: an `.error` result means the
whole bootstrap rolled back. -/
def create_default_accounts (db : DB) (school : ℕ) :
    Except PyError (DB × List (String × Account)) :=
  createDefaultsLoop school db [] defaultAccountsData

/-! ### Specification-side definitions

These follow the wording of the specification, to be compared with the
definitions translated from the source. -/

/-- The claim's notion of the relevant lines for `getBalance`: "all
journal lines of A whose owning entry has status Posted (and, when d is
given, whose entry date is <= d)" — with no tenancy condition. -/
def claimLineFor (db : DB) (a : Account) (as_of : Option Date)
    (l : JournalEntryLine) : Bool :=
  l.account == a.id &&
    match db.findEntry l.journal_entry with
    | none => false
    | some e =>
      e.status == .posted &&
      (match as_of with
       | none => true
       | some d => decide (e.date ≤ d))

/-- `getBalance` as worded by the claim: sum of debit amounts minus sum
of credit amounts over the posted lines, the opening balance added to
the debit side when `opening_balance_type` is debit and to the credit
side otherwise, and the whole expression negated for Liability, Equity
and Revenue accounts. -/
def specBalance (db : DB) (a : Account) (as_of : Option Date) : Amount :=
  let ls := db.lines.filter (claimLineFor db a as_of)
  let debits := (ls.map (·.debit_amount)).sum +
    (if a.opening_balance_type = .debit then a.opening_balance else 0)
  let credits := (ls.map (·.credit_amount)).sum +
    (if a.opening_balance_type = .debit then 0 else a.opening_balance)
  if a.account_type = .asset ∨ a.account_type = .expense then
    debits - credits
  else
    credits - debits

/-- Tenancy consistency (decidable form): every line of account `a`
belongs to an entry whose fiscal year exists and is owned by `a`'s
school.  This is the multi-tenant data-model invariant under which the
claim's formula and the source's school-filtered queryset coincide. -/
def tenantConsistent (db : DB) (a : Account) : Bool :=
  db.lines.all (fun l =>
    !(l.account == a.id) ||
      (match db.findEntry l.journal_entry with
       | none => true
       | some e =>
         match db.findFY e.fiscal_year with
         | none => false
         | some f => f.school == a.school))

/-- The claim's next entry-number sequence: one greater than the numeric
suffix of the highest existing entry number sharing the prefix, or 1
when no entry with the prefix exists. -/
def specNextSeq (ns : List ℕ) : ℕ :=
  match ns with
  | [] => 1
  | _ => ns.foldr max 0 + 1

/-- The per-row increment the ledger claim describes, read off a
report row: debit − credit for debit-normal account types, credit −
debit otherwise. -/
def rowDelta (t : AccountType) (r : LedgerRow) : Amount :=
  if t.isDebitNormal then r.debit - r.credit else r.credit - r.debit

/-! ### Concrete fixtures used by witnesses and counterexamples -/

/-- Fiscal year 2025 for school 0, active, covering the whole year. -/
def fyA : FiscalYear :=
  { id := 1, school := 0, name := "FY2025", start_date := 2025001,
    end_date := 2025365 }

/-- "1000 Cash": Asset account with opening debit balance 100.00. -/
def cashA : Account :=
  { id := 1, school := 0, code := "1000", name := "Cash",
    account_type := .asset, opening_balance := 100,
    opening_balance_type := .debit }

/-- "4000 Revenue": Revenue account. -/
def revA : Account :=
  { id := 2, school := 0, code := "4000", name := "Revenue",
    account_type := .revenue }

/-- A posted entry DR Cash 50.00 / CR Revenue 50.00 dated inside `fyA`. -/
def entryTB : JournalEntry :=
  { id := 1, school := 0, fiscal_year := 1, entry_number := "JE2025000001",
    date := 2025010, status := .posted, total_debit := 50,
    total_credit := 50 }

/-- The trial-balance scenario database: `cashA`, `revA`, one posted
entry DR Cash 50 / CR Revenue 50. -/
def dbTB : DB :=
  { fiscal_years := [fyA], accounts := [cashA, revA], entries := [entryTB],
    lines :=
      [ { id := 1, journal_entry := 1, account := 1, debit_amount := 50,
          line_number := 1 },
        { id := 2, journal_entry := 1, account := 2, credit_amount := 50,
          line_number := 2 } ] }

/-- Ledger-scenario account: opening balance 0, Asset. -/
def accLed : Account :=
  { id := 5, school := 0, code := "1100", name := "Bank",
    account_type := .asset }

/-- The ledger scenario database: two posted entries, DR 200 on day 1
and CR 50 on day 2 (stored in reverse date order to exercise the sort). -/
def dbLed : DB :=
  { fiscal_years := [fyA], accounts := [accLed],
    entries :=
      [ { id := 12, school := 0, fiscal_year := 1,
          entry_number := "JE2025000012", date := 2025002, status := .posted },
        { id := 11, school := 0, fiscal_year := 1,
          entry_number := "JE2025000011", date := 2025001, status := .posted } ],
    lines :=
      [ { id := 21, journal_entry := 12, account := 5, credit_amount := 50 },
        { id := 22, journal_entry := 11, account := 5, debit_amount := 200 } ] }

/-- A fresh draft entry awaiting number allocation. -/
def entryNew : JournalEntry :=
  { id := 99, school := 0, fiscal_year := 1, entry_number := "",
    date := 2025005 }

/-- Database with entry numbers JE2025000003, JE2024000009,
JE2025000007: the JE2025 prefix holds sequences 3 and 7. -/
def dbNum : DB :=
  { fiscal_years := [fyA],
    entries :=
      [ { id := 1, school := 0, fiscal_year := 1,
          entry_number := "JE2025000003", date := 2025001 },
        { id := 2, school := 0, fiscal_year := 1,
          entry_number := "JE2024000009", date := 2024300 },
        { id := 3, school := 0, fiscal_year := 1,
          entry_number := "JE2025000007", date := 2025002 } ] }

/-- Result of the first `create_default_accounts` call on an empty
database for school 0. -/
def chartResult : Except PyError (DB × List (String × Account)) :=
  create_default_accounts {} 0

/-- The database produced by the first bootstrap call. -/
def dbChart : DB :=
  match chartResult with
  | .ok (db, _) => db
  | .error _ => {}

/-- The code-to-account map produced by the first bootstrap call. -/
def chartMap : List (String × Account) :=
  match chartResult with
  | .ok (_, m) => m
  | .error _ => []

/-- `dbChart` equipped with the active fiscal year `fyA`: a tenant with
the full default chart (1200/4000/2100 included) and an active fiscal
year covering 2025. -/
def dbChartFY : DB := { dbChart with fiscal_years := [fyA] }

/-- The invoice of the posting scenario: total 115.00 = taxable 100.00
+ VAT 15.00, issued inside `fyA`. -/
def invA : Invoice :=
  { school := 0, invoice_number := "INV-1", issue_date := 2025015,
    total_amount := 115, total_taxable_amount := 100, total_vat := 15 }

/-- A posted, balanced entry used by the immutability scenario. -/
def entryC4 : JournalEntry :=
  { id := 1, school := 0, fiscal_year := 1, entry_number := "JE2025000001",
    date := 2025010, status := .posted, total_debit := 50,
    total_credit := 50 }

/-- Database holding `entryC4` and its two balanced lines. -/
def dbC4 : DB :=
  { fiscal_years := [fyA], accounts := [cashA, revA], entries := [entryC4],
    lines :=
      [ { id := 1, journal_entry := 1, account := 1, debit_amount := 50,
          line_number := 1 },
        { id := 2, journal_entry := 1, account := 2, credit_amount := 50,
          line_number := 2 } ] }

/-- Database for unbalanced-entry creation attempts: chart of two
accounts within `fyA`, no entries yet. -/
def dbMan : DB := { fiscal_years := [fyA], accounts := [cashA, revA] }

/-! ### Helper lemmas -/

/-- The first iteration of the line-creation loop always raises
`TypeError`: the call site's keyword names include `teacher`, which is
not among the model's fields. -/
theorem createLines_cons (eid : ℕ) (db : DB) (idx : ℕ) (ld : LineData)
    (rest : List LineData) :
    createLines eid db idx (ld :: rest) =
      .error (.typeError "JournalEntryLine() got unexpected keyword arguments") := by
  rfl

/-- `create_journal_entry` with any non-empty `lines_data` raises
`TypeError`. -/
theorem create_journal_entry_cons (db : DB) (school : ℕ)
    (fy : FiscalYear) (date : Date) (desc : String) (ld : LineData)
    (rest : List LineData) (ref : String) (user : Option ℕ) (ap : Bool) :
    create_journal_entry db school fy date desc (ld :: rest) ref user ap =
      .error (.typeError "JournalEntryLine() got unexpected keyword arguments") := by
  simp only [create_journal_entry, createLines_cons]
  rfl

/-! ### Claims -/

/-- C3: for every call to `AccountingService.create_journal_entry` with
a non-empty `lines_data` list, constructing the first
`JournalEntryLine` raises `TypeError` (the constructor receives a
`teacher` keyword argument, but the model defines no `teacher` field);
the atomic transaction rolls back (the `.error` result carries no new
database state, so nothing persists), and consequently
`post_invoice_to_ledger` and `post_payment_to_ledger` never return a
created entry. -/
theorem c3_create_always_typeError :
    (∀ (db : DB) (school : ℕ) (fy : FiscalYear) (date : Date)
       (desc : String) (lines_data : List LineData) (ref : String)
       (user : Option ℕ) (ap : Bool), lines_data ≠ [] →
       create_journal_entry db school fy date desc lines_data ref user ap =
         .error (.typeError "JournalEntryLine() got unexpected keyword arguments")) ∧
    (∀ (db : DB) (inv : Invoice) (u : ℕ) (r : DB × JournalEntry),
       post_invoice_to_ledger db inv u ≠ .ok r) ∧
    (∀ (db : DB) (p : Payment) (u : ℕ) (r : DB × JournalEntry),
       post_payment_to_ledger db p u ≠ .ok r) := by
  refine ⟨?_, ?_, ?_⟩
  · intro db school fy date desc lines_data ref user ap hne
    cases lines_data with
    | nil => exact absurd rfl hne
    | cons ld rest => exact create_journal_entry_cons db school fy date desc ld rest ref user ap
  · intro db inv u r
    unfold post_invoice_to_ledger
    cases hfy : activeFYFor db inv.school inv.issue_date with
    | none =>
      simp only [hfy]
      exact fun h => Except.noConfusion h
    | some f =>
      simp only [hfy]
      cases h1 : accountByCode db inv.school "1200" .asset <;>
        cases h2 : accountByCode db inv.school "4000" .revenue <;>
          cases h3 : accountByCode db inv.school "2100" .liability <;>
            simp only [h1, h2, h3, create_journal_entry_cons] <;>
              exact fun h => Except.noConfusion h
  · intro db p u r
    unfold post_payment_to_ledger
    cases hfy : activeFYFor db p.invoice.school p.payment_date with
    | none =>
      simp only [hfy]
      exact fun h => Except.noConfusion h
    | some f =>
      simp only [hfy]
      by_cases hm : p.payment_method = "cash" ∨ p.payment_method = "card" <;>
        cases h1 : accountByCode db p.invoice.school "1100" .asset <;>
          cases h2 : accountByCode db p.invoice.school "1110" .asset <;>
            cases h3 : accountByCode db p.invoice.school "1200" .asset <;>
              simp only [hm, if_true, if_false, h1, h2, h3,
                create_journal_entry_cons] <;>
                exact fun h => Except.noConfusion h

/-- C3 witness: a concrete creation attempt (the unbalanced manual
lines over `dbMan`) raises the `teacher` `TypeError`. -/
theorem c3_witness :
    create_journal_entry dbMan 0 fyA 2025010 "Manual entry"
        [ { account := 1, debit_amount := 100 },
          { account := 2, credit_amount := 90 } ] "" (some 7) false =
      .error (.typeError "JournalEntryLine() got unexpected keyword arguments") :=
  c3_create_always_typeError.1 dbMan 0 fyA 2025010 "Manual entry"
    [ { account := 1, debit_amount := 100 },
      { account := 2, credit_amount := 90 } ] "" (some 7) false (by decide)

/-- C2 (code bug): on the scenario input — invoice 115.00 = 100.00 +
15.00 VAT, issue date inside the active fiscal year of a tenant whose
chart (the default bootstrap) contains 1200/4000/2100 —
`post_invoice_to_ledger` does not return a posted three-line entry: it
raises the `teacher` `TypeError` from the first line constructor and
rolls back.  The first three conjuncts show the scenario's
preconditions hold (active year found, all three convention accounts
present), so the failure is not a missing-precondition failure. -/
theorem c2_invoice_posting_failing_input :
    (activeFYFor dbChartFY 0 invA.issue_date = some fyA) ∧
    (accountByCode dbChartFY 0 "1200" .asset).isSome = true ∧
    (accountByCode dbChartFY 0 "4000" .revenue).isSome = true ∧
    (accountByCode dbChartFY 0 "2100" .liability).isSome = true ∧
    post_invoice_to_ledger dbChartFY invA 7 =
      .error (.typeError "JournalEntryLine() got unexpected keyword arguments") := by
  refine ⟨by decide, by decide, by decide, by decide, ?_⟩
  rfl

/-- C8 (code bug): creating an entry with lines [debit 100 to Cash,
credit 90 to Revenue] does not raise the balance `ValidationError`
(`EntryNotBalancedError`): the first line constructor raises the
`teacher` `TypeError` before `entry.clean()` ever runs.  The atomic
transaction still rolls back, so no entry persists — but for the wrong
reason.  The second conjunct shows the raised error is not a
`ValidationError` of any message. -/
theorem c8_unbalanced_entry_failing_input :
    create_journal_entry dbMan 0 fyA 2025010 "Unbalanced"
        [ { account := 1, debit_amount := 100 },
          { account := 2, credit_amount := 90 } ] "" (some 3) false =
      .error (.typeError "JournalEntryLine() got unexpected keyword arguments") ∧
    (∀ msg, PyError.typeError "JournalEntryLine() got unexpected keyword arguments" ≠
      PyError.validationError msg) := by
  exact ⟨by rfl, fun msg h => PyError.noConfusion h⟩

/-- C9 (code bug): `JournalEntryLine.clean` does implement exactly the
claimed xor check (first two conjuncts), but journal-entry creation
never raises it: the service path creates lines with `objects.create`
— which does not call `clean` — and in any case fails first with the
`teacher` `TypeError`, so an entry containing a line with both amounts
positive (or both zero) fails with `TypeError`, not with the claimed
`UnbalancedLineError` (third conjunct). -/
theorem c9_line_xor_not_enforced_on_create :
    (JournalEntryLine.clean
        { id := 1, journal_entry := 1, account := 1, debit_amount := 100,
          credit_amount := 100, line_number := 1 } dbMan =
      .error (.validationError "Line cannot have both debit and credit amounts")) ∧
    (JournalEntryLine.clean
        { id := 1, journal_entry := 1, account := 1, debit_amount := 0,
          credit_amount := 0, line_number := 1 } dbMan =
      .error (.validationError "Line must have either debit or credit amount")) ∧
    (create_journal_entry dbMan 0 fyA 2025010 "Both-positive line"
        [ { account := 1, debit_amount := 100, credit_amount := 100 },
          { account := 2, credit_amount := 0 } ] "" (some 3) false =
      .error (.typeError "JournalEntryLine() got unexpected keyword arguments")) := by
  exact ⟨by rfl, by rfl, by rfl⟩

/-- C4 counterexample: re-validating a posted, balanced entry after
modifying its *date* to one outside the fiscal year raises the
date-range `ValidationError`, not the posted-immutability error the
claim names — `clean` checks balance and date range before the
posted-entry check. -/
theorem c4_counterexample :
    JournalEntry.clean { entryC4 with date := 2026100 } dbC4 =
      .error (.validationError "Entry date must be within fiscal year") ∧
    PyError.validationError "Entry date must be within fiscal year" ≠
      PyError.validationError "Cannot modify posted journal entries" := by
  constructor
  · simp [JournalEntry.clean, dbC4, entryC4, DB.totalsOf, DB.findFY, fyA, pyAbs]
  · decide

/-- C4 amended: calling `post` again on a posted entry fails with
`AlreadyPostedError` ("Entry is already posted") and never yields a new
database state, so the persisted `total_debit`/`total_credit` cannot
change; re-validating a stored posted entry always fails with *some*
error, and specifically with `PostedEntryImmutableError` ("Cannot
modify posted journal entries") whenever the modified entry still
balances within 0.01 and its date still lies within the fiscal year
(otherwise the corresponding balance/date `ValidationError` is raised
first). -/
theorem c4_amended_posted_immutable :
    ∀ (db : DB) (e : JournalEntry) (u : ℕ),
      e.status = .posted →
      (JournalEntry.post e u db =
        .error (.validationError "Entry is already posted")) ∧
      (∀ r, JournalEntry.post e u db ≠ .ok r) ∧
      (e.id ≠ 0 →
        ∀ old, db.findEntry e.id = some old → old.status = .posted →
          ((∃ err, JournalEntry.clean e db = .error err) ∧
           (∀ fy, db.findFY e.fiscal_year = some fy →
             pyAbs ((db.totalsOf e).1 - (db.totalsOf e).2) ≤ (1 : ℚ) / 100 →
             fy.start_date ≤ e.date → e.date ≤ fy.end_date →
             JournalEntry.clean e db =
               .error (.validationError "Cannot modify posted journal entries")))) := by
  intro db e u hstatus
  have hpost : JournalEntry.post e u db =
      .error (.validationError "Entry is already posted") := by
    rw [JournalEntry.post, if_pos hstatus]
  refine ⟨hpost, ?_, ?_⟩
  · intro r h
    rw [hpost] at h
    exact Except.noConfusion h
  · intro hid old hold holdStatus
    constructor
    · by_cases hbal : pyAbs ((db.totalsOf e).1 - (db.totalsOf e).2) > (1 : ℚ) / 100
      · refine ⟨.validationError "Journal entry must balance", ?_⟩
        simp only [JournalEntry.clean]
        rw [if_pos hbal]
      · cases hfy : db.findFY e.fiscal_year with
        | none =>
          refine ⟨.doesNotExist, ?_⟩
          simp only [JournalEntry.clean, hfy]
          rw [if_neg hbal]
        | some fy =>
          by_cases hdate : e.date < fy.start_date ∨ e.date > fy.end_date
          · refine ⟨.validationError "Entry date must be within fiscal year", ?_⟩
            simp only [JournalEntry.clean, hfy]
            rw [if_neg hbal, if_pos hdate]
          · refine ⟨.validationError "Cannot modify posted journal entries", ?_⟩
            simp only [JournalEntry.clean, hfy, hold]
            rw [if_neg hbal, if_neg hdate, if_pos ⟨hid, hstatus⟩,
              if_pos holdStatus]
    · intro fy hfy hbal hstart hend
      have hnb : ¬(pyAbs ((db.totalsOf e).1 - (db.totalsOf e).2) > (1 : ℚ) / 100) :=
        not_lt.mpr hbal
      have hdate : ¬(e.date < fy.start_date ∨ e.date > fy.end_date) := by
        push_neg
        exact ⟨hstart, hend⟩
      simp only [JournalEntry.clean, hfy, hold]
      rw [if_neg hnb, if_neg hdate, if_pos ⟨hid, hstatus⟩, if_pos holdStatus]

/-- C4 witness: for the concrete posted entry `entryC4` (balanced,
dated in `fyA`) with only its description modified, `post` fails with
"Entry is already posted" and `clean` fails with "Cannot modify posted
journal entries". -/
theorem c4_witness :
    JournalEntry.post entryC4 9 dbC4 =
      .error (.validationError "Entry is already posted") ∧
    JournalEntry.clean { entryC4 with description := "Tampered" } dbC4 =
      .error (.validationError "Cannot modify posted journal entries") :=
  ⟨(c4_amended_posted_immutable dbC4 entryC4 9 rfl).1,
   ((c4_amended_posted_immutable dbC4
        { entryC4 with description := "Tampered" } 9 rfl).2.2 (by decide)
      entryC4 (by rfl) rfl).2 fyA (by rfl)
      (by simp [DB.totalsOf, dbC4, entryC4, pyAbs]) (by decide) (by decide)⟩

/-- C1: under the multi-tenant invariant that every line of the account
belongs to an entry of a fiscal year of the account's school,
`get_balance` computes exactly the claim's formula: the sum of debit
amounts minus the sum of credit amounts over all posted (and, given a
cut-off, date-bounded) journal lines of the account, the opening
balance added on the side named by `opening_balance_type`, the whole
expression negated for Liability/Equity/Revenue accounts. -/
theorem c1_get_balance_spec :
    ∀ (db : DB) (a : Account) (as_of : Option Date),
      tenantConsistent db a = true →
      a.get_balance db as_of = specBalance db a as_of := by
  intro db a as_of hten
  have hfilter : db.lines.filter (postedLineFor db a as_of) =
      db.lines.filter (claimLineFor db a as_of) := by
    refine List.filter_congr ?_
    intro l hl
    have hfact := List.all_eq_true.mp hten l hl
    cases hacc : (l.account == a.id) with
    | false => simp [postedLineFor, claimLineFor, hacc]
    | true =>
      cases hfe : db.findEntry l.journal_entry with
      | none => simp [postedLineFor, claimLineFor, hacc, hfe]
      | some e =>
        rw [hacc, hfe] at hfact
        simp only [Bool.not_true, Bool.false_or] at hfact
        simp [postedLineFor, claimLineFor, hacc, hfe, hfact]
  unfold Account.get_balance specBalance
  rw [hfilter]
  cases hob : a.opening_balance_type <;>
    cases hat : a.account_type <;>
      simp [AccountType.isDebitNormal]

/-- C1 witness: the scenario database `dbTB` is tenant-consistent, and
`get_balance` of the Cash account equals the claim's formula there. -/
theorem c1_witness :
    cashA.get_balance dbTB none = specBalance dbTB cashA none :=
  c1_get_balance_spec dbTB cashA none (by decide)

/-- The positive part of a balance, as the trial-balance loop places it. -/
theorem if_pos_part_eq_max (b : ℚ) : (if b > 0 then b else 0) = max b 0 := by
  rcases lt_trichotomy b 0 with h | h | h
  · rw [if_neg (not_lt.mpr h.le), max_eq_right h.le]
  · simp [h]
  · rw [if_pos h, max_eq_left h.le]

/-- The negative part of a balance, as the trial-balance loop places it. -/
theorem if_neg_part_eq_max (b : ℚ) : (if b < 0 then pyAbs b else 0) = max (-b) 0 := by
  rcases lt_trichotomy b 0 with h | h | h
  · rw [if_pos h, pyAbs, if_pos h, max_eq_left (by linarith)]
  · simp [h]
  · rw [if_neg (not_lt.mpr h.le), max_eq_right (by linarith)]

/-- Trial-balance row of the Cash scenario account. -/
def rowCash : TBRow :=
  { code := "1000", name := "Cash", account_type := .asset,
    debit_balance := 150, credit_balance := 0 }

/-- Trial-balance row of the Revenue scenario account. -/
def rowRev : TBRow :=
  { code := "4000", name := "Revenue", account_type := .revenue,
    debit_balance := 0, credit_balance := 50 }

/-- The Cash scenario balance: opening debit 100 + posted debit 50. -/
theorem cashA_balance : cashA.get_balance dbTB none = 150 := by
  norm_num [Account.get_balance, postedLineFor, dbTB, cashA, revA, entryTB,
    DB.findEntry, DB.findFY, fyA, AccountType.isDebitNormal,
    List.filter_cons, List.find?]

/-- The Revenue scenario balance: posted credit 50. -/
theorem revA_balance : revA.get_balance dbTB none = 50 := by
  norm_num [Account.get_balance, postedLineFor, dbTB, cashA, revA, entryTB,
    DB.findEntry, DB.findFY, fyA, AccountType.isDebitNormal,
    List.filter_cons, List.find?]

/-- The scenario trial balance evaluates to the two expected rows with
totals 150 / 50 and `is_balanced = false`. -/
theorem trial_balance_dbTB :
    generate_trial_balance dbTB 0 none =
      { trial_balance := [rowCash, rowRev], total_debits := 150,
        total_credits := 50, is_balanced := false } := by
  have hsort : ((dbTB.accounts.filter (fun a =>
      a.school == 0 && a.is_active)).insertionSort
        (fun a b => lexLeB a.code.data b.code.data = true)) = [cashA, revA] := by
    decide
  have hrow1 : tbRowOf dbTB none cashA = some rowCash := by
    rw [tbRowOf, cashA_balance]
    norm_num [cashA, AccountType.isDebitNormal, rowCash]
  have hrow2 : tbRowOf dbTB none revA = some rowRev := by
    rw [tbRowOf, revA_balance]
    norm_num [revA, AccountType.isDebitNormal, rowRev]
  simp only [generate_trial_balance, hsort, hrow1, hrow2,
    List.filterMap_cons, List.filterMap_nil, List.map_cons, List.map_nil,
    List.sum_cons, List.sum_nil]
  norm_num [rowCash, rowRev, pyAbs]

/-- C6 counterexample: on the spec's own scenario — Cash (Asset,
opening debit 100.00) and one posted entry DR Cash 50.00 / CR Revenue
50.00 — the trial balance has debit column 150.00 and credit column
50.00, so `is_balanced` is `false`, not `true` as the claim asserts
(the opening balance has no offsetting entry). -/
theorem c6_counterexample :
    (generate_trial_balance dbTB 0 none).is_balanced = false := by
  rw [trial_balance_dbTB]

/-- C6 amended: the trial balance contains, for every active account of
the tenant with nonzero balance, a row carrying the account's balance in
the debit or credit column per the account type's sign convention;
`is_balanced` is true iff |debit column − credit column| < 0.01; and on
the scenario input the report shows Cash debit 150.00, Revenue credit
50.00 and `is_balanced = false` (not `true`: the scenario's opening
balance is unopposed). -/
theorem c6_amended_trial_balance :
    (∀ (db : DB) (school : ℕ) (d : Option Date) (a : Account),
      a ∈ db.accounts → a.school = school → a.is_active = true →
      a.get_balance db d ≠ 0 →
      ∃ row ∈ (generate_trial_balance db school d).trial_balance,
        row.code = a.code ∧ row.name = a.name ∧
        row.account_type = a.account_type ∧
        (a.account_type.isDebitNormal = true →
          row.debit_balance = max (a.get_balance db d) 0 ∧
          row.credit_balance = max (-(a.get_balance db d)) 0) ∧
        (a.account_type.isDebitNormal = false →
          row.debit_balance = max (-(a.get_balance db d)) 0 ∧
          row.credit_balance = max (a.get_balance db d) 0)) ∧
    (∀ (db : DB) (school : ℕ) (d : Option Date),
      (generate_trial_balance db school d).is_balanced = true ↔
        |(generate_trial_balance db school d).total_debits -
          (generate_trial_balance db school d).total_credits| < (1 : ℚ) / 100) ∧
    ((generate_trial_balance dbTB 0 none).trial_balance = [rowCash, rowRev] ∧
      (generate_trial_balance dbTB 0 none).is_balanced = false) := by
  refine ⟨?_, ?_, by rw [trial_balance_dbTB], c6_counterexample⟩
  · intro db school d a hmem hschool hactive hbal
    have hfilter : a ∈ db.accounts.filter (fun a =>
        a.school == school && a.is_active) := by
      rw [List.mem_filter]
      exact ⟨hmem, by simp [hschool, hactive]⟩
    have hsorted : a ∈ (db.accounts.filter (fun a =>
        a.school == school && a.is_active)).insertionSort
          (fun a b => lexLeB a.code.data b.code.data = true) :=
      (List.mem_insertionSort (fun a b : Account =>
        lexLeB a.code.data b.code.data = true)).mpr hfilter
    cases hdn : a.account_type.isDebitNormal with
    | true =>
      refine ⟨{ code := a.code, name := a.name, account_type := a.account_type,
                debit_balance :=
                  if a.get_balance db d > 0 then a.get_balance db d else 0,
                credit_balance :=
                  if a.get_balance db d < 0 then pyAbs (a.get_balance db d)
                  else 0 },
        ?_, rfl, rfl, rfl, ?_, ?_⟩
      · refine List.mem_filterMap.mpr ⟨a, hsorted, ?_⟩
        rw [tbRowOf, if_pos hbal]
        exact if_pos hdn
      · intro
        exact ⟨if_pos_part_eq_max _, if_neg_part_eq_max _⟩
      · intro hcontra
        exact Bool.noConfusion hcontra
    | false =>
      refine ⟨{ code := a.code, name := a.name, account_type := a.account_type,
                debit_balance :=
                  if a.get_balance db d < 0 then pyAbs (a.get_balance db d)
                  else 0,
                credit_balance :=
                  if a.get_balance db d > 0 then a.get_balance db d else 0 },
        ?_, rfl, rfl, rfl, ?_, ?_⟩
      · refine List.mem_filterMap.mpr ⟨a, hsorted, ?_⟩
        rw [tbRowOf, if_pos hbal]
        exact if_neg (by simp [hdn])
      · intro hcontra
        exact Bool.noConfusion hcontra
      · intro
        exact ⟨if_neg_part_eq_max _, if_pos_part_eq_max _⟩
  · intro db school d
    simp only [generate_trial_balance, decide_eq_true_eq, pyAbs_eq_abs]

/-- C6 witness: the Cash account of the scenario database has a trial
balance row with its 150.00 balance in the debit column. -/
theorem c6_witness :
    ∃ row ∈ (generate_trial_balance dbTB 0 none).trial_balance,
      row.code = cashA.code ∧ row.name = cashA.name ∧
      row.account_type = cashA.account_type ∧
      (cashA.account_type.isDebitNormal = true →
        row.debit_balance = max (cashA.get_balance dbTB none) 0 ∧
        row.credit_balance = max (-(cashA.get_balance dbTB none)) 0) ∧
      (cashA.account_type.isDebitNormal = false →
        row.debit_balance = max (-(cashA.get_balance dbTB none)) 0 ∧
        row.credit_balance = max (cashA.get_balance dbTB none) 0) :=
  c6_amended_trial_balance.1 dbTB 0 none cashA (by decide) rfl rfl
    (by rw [cashA_balance]; norm_num)

/-- The byte-wise string order is total. -/
theorem lexLeB_total : ∀ a b : List Char, lexLeB a b = true ∨ lexLeB b a = true := by
  intro a
  induction a with
  | nil => intro b; left; rfl
  | cons c as ih =>
    intro b
    cases b with
    | nil => right; rfl
    | cons d bs =>
      by_cases h1 : c.toNat < d.toNat
      · left; simp [lexLeB, h1]
      · by_cases h2 : d.toNat < c.toNat
        · right; simp [lexLeB, h2]
        · rcases ih bs with hl | hr
          · left; simp [lexLeB, h1, h2, hl]
          · right; simp [lexLeB, h1, h2, hr]

/-- The byte-wise string order is transitive. -/
theorem lexLeB_trans : ∀ a b c : List Char,
    lexLeB a b = true → lexLeB b c = true → lexLeB a c = true := by
  intro a
  induction a with
  | nil => intro b c _ _; rfl
  | cons x as ih =>
    intro b c hab hbc
    cases b with
    | nil => simp [lexLeB] at hab
    | cons y bs =>
      cases c with
      | nil => simp [lexLeB] at hbc
      | cons z cs =>
        simp only [lexLeB] at hab hbc ⊢
        split_ifs at hab hbc ⊢ <;>
          first
            | rfl
            | omega
            | (exact ih bs cs hab hbc)

/-- `entryKeyLe` unfolded to the (date, entry number) lexicographic
order it implements. -/
theorem entryKeyLe_iff (e1 e2 : JournalEntry) :
    entryKeyLe e1 e2 = true ↔
      e1.date < e2.date ∨
        (e1.date = e2.date ∧ lexLeB e1.entry_number.data e2.entry_number.data = true) := by
  simp [entryKeyLe]

/-- The ledger sort key is total. -/
theorem entryKeyLe_total (e1 e2 : JournalEntry) :
    entryKeyLe e1 e2 = true ∨ entryKeyLe e2 e1 = true := by
  rw [entryKeyLe_iff, entryKeyLe_iff]
  rcases Nat.lt_trichotomy e1.date e2.date with h | h | h
  · left; left; exact h
  · rcases lexLeB_total e1.entry_number.data e2.entry_number.data with hl | hr
    · left; right; exact ⟨h, hl⟩
    · right; right; exact ⟨h.symm, hr⟩
  · right; left; exact h

/-- The ledger sort key is transitive. -/
theorem entryKeyLe_trans (e1 e2 e3 : JournalEntry) :
    entryKeyLe e1 e2 = true → entryKeyLe e2 e3 = true →
      entryKeyLe e1 e3 = true := by
  rw [entryKeyLe_iff, entryKeyLe_iff, entryKeyLe_iff]
  rintro (h12 | ⟨h12, l12⟩) (h23 | ⟨h23, l23⟩)
  · left; exact Nat.lt_trans h12 h23
  · left; exact lt_of_lt_of_eq h12 h23
  · left; exact lt_of_eq_of_lt h12 h23
  · right; exact ⟨h12.trans h23, lexLeB_trans _ _ _ l12 l23⟩

/-- The rows emitted by the ledger loop carry the date, entry number,
debit and credit of the underlying (line, entry) pairs, in order. -/
theorem ledgerLoop_map (t : AccountType) :
    ∀ (L : List (JournalEntryLine × JournalEntry)) (bal : Amount),
      ((ledgerLoop t bal L).1).map
          (fun r => (r.date, r.entry_number, r.debit, r.credit)) =
        L.map (fun p => (p.2.date, p.2.entry_number, p.1.debit_amount,
          p.1.credit_amount)) := by
  intro L
  induction L with
  | nil => intro bal; rfl
  | cons p rest ih =>
    intro bal
    cases p with
    | mk l e => simp [ledgerLoop, ih]

/-- Row `i` of the ledger loop carries the running balance: the seed
plus the sum of the per-line increments of the first `i + 1` pairs. -/
theorem ledgerLoop_balance (t : AccountType) :
    ∀ (L : List (JournalEntryLine × JournalEntry)) (bal : Amount) (i : ℕ)
      (h : i < ((ledgerLoop t bal L).1).length),
      (((ledgerLoop t bal L).1).get ⟨i, h⟩).balance =
        bal + ((L.take (i + 1)).map (fun p => ledgerDelta t p.1)).sum := by
  intro L
  induction L with
  | nil => intro bal i h; simp [ledgerLoop] at h
  | cons p rest ih =>
    intro bal i h
    cases p with
    | mk l e =>
      cases i with
      | zero => simp [ledgerLoop]
      | succ j =>
        have h' : j < ((ledgerLoop t (bal + ledgerDelta t l) rest).1).length := by
          simpa [ledgerLoop] using h
        have := ih (bal + ledgerDelta t l) j h'
        simp only [ledgerLoop, List.take_succ_cons, List.map_cons,
          List.sum_cons, List.get_cons_succ]
        rw [this]
        ring

/-- The final running balance of the ledger loop is the seed plus the
sum of all per-line increments. -/
theorem ledgerLoop_final (t : AccountType) :
    ∀ (L : List (JournalEntryLine × JournalEntry)) (bal : Amount),
      (ledgerLoop t bal L).2 =
        bal + (L.map (fun p => ledgerDelta t p.1)).sum := by
  intro L
  induction L with
  | nil => intro bal; simp [ledgerLoop]
  | cons p rest ih =>
    intro bal
    cases p with
    | mk l e =>
      simp only [ledgerLoop, List.map_cons, List.sum_cons]
      rw [ih]
      ring

/-- The ledger scenario's first joined (line, entry) pair: DR 200 on
day 1. -/
def pairA : JournalEntryLine × JournalEntry :=
  ({ id := 22, journal_entry := 11, account := 5, debit_amount := 200 },
   { id := 11, school := 0, fiscal_year := 1, entry_number := "JE2025000011",
     date := 2025001, status := .posted })

/-- The ledger scenario's second joined pair: CR 50 on day 2. -/
def pairB : JournalEntryLine × JournalEntry :=
  ({ id := 21, journal_entry := 12, account := 5, credit_amount := 50 },
   { id := 12, school := 0, fiscal_year := 1, entry_number := "JE2025000012",
     date := 2025002, status := .posted })

/-- C7: the ledger report returns the account's opening balance and
side; its rows are ordered ascending by (entry date, entry number);
row `i` carries the running balance — the seed (opening balance, signed
by `opening_balance_type`) plus the sum of the first `i + 1` per-row
increments (debit − credit for Asset/Expense accounts, credit − debit
otherwise); the closing balance is the final running balance; and on
the scenario input (opening 0, posted DR 200 day 1 and CR 50 day 2) the
row balances are 200 then 150 with closing balance 150. -/
theorem c7_ledger_report :
    (∀ (db : DB) (a : Account) (sd ed : Option Date),
      (generate_ledger_report db a sd ed).opening_balance = a.opening_balance ∧
      (generate_ledger_report db a sd ed).opening_balance_type =
        a.opening_balance_type ∧
      List.Pairwise (fun r1 r2 : LedgerRow =>
          r1.date < r2.date ∨ (r1.date = r2.date ∧
            lexLeB r1.entry_number.data r2.entry_number.data = true))
        (generate_ledger_report db a sd ed).ledger_entries ∧
      (∀ i (h : i < (generate_ledger_report db a sd ed).ledger_entries.length),
        ((generate_ledger_report db a sd ed).ledger_entries.get ⟨i, h⟩).balance =
          (if a.opening_balance_type = .debit then a.opening_balance
           else -a.opening_balance) +
            (((generate_ledger_report db a sd ed).ledger_entries.take (i + 1)).map
              (rowDelta a.account_type)).sum) ∧
      (generate_ledger_report db a sd ed).closing_balance =
        (if a.opening_balance_type = .debit then a.opening_balance
         else -a.opening_balance) +
          ((generate_ledger_report db a sd ed).ledger_entries.map
            (rowDelta a.account_type)).sum) ∧
    ((generate_ledger_report dbLed accLed none none).ledger_entries.map
        (·.balance) = [200, 150] ∧
      (generate_ledger_report dbLed accLed none none).closing_balance = 150) := by
  constructor
  · intro db a sd ed
    have hrows : (generate_ledger_report db a sd ed).ledger_entries =
        (ledgerLoop a.account_type
          (if a.opening_balance_type = .debit then a.opening_balance
           else -a.opening_balance) (ledgerJoin db a sd ed)).1 := rfl
    have hmap := ledgerLoop_map a.account_type (ledgerJoin db a sd ed)
      (if a.opening_balance_type = .debit then a.opening_balance
       else -a.opening_balance)
    refine ⟨rfl, rfl, ?_, ?_, ?_⟩
    · -- ordering: transported from the sortedness of the joined queryset
      have hsorted : List.Pairwise
          (fun p q : JournalEntryLine × JournalEntry =>
            entryKeyLe p.2 q.2 = true) (ledgerJoin db a sd ed) := by
        haveI : IsTrans (JournalEntryLine × JournalEntry)
            (fun p q => entryKeyLe p.2 q.2 = true) :=
          ⟨fun p q s hpq hqs => entryKeyLe_trans _ _ _ hpq hqs⟩
        haveI : IsTotal (JournalEntryLine × JournalEntry)
            (fun p q => entryKeyLe p.2 q.2 = true) :=
          ⟨fun p q => entryKeyLe_total p.2 q.2⟩
        exact List.sorted_insertionSort _ _
      have hK : List.Pairwise
          (fun x y : Date × String × Amount × Amount =>
            x.1 < y.1 ∨ (x.1 = y.1 ∧ lexLeB x.2.1.data y.2.1.data = true))
          ((generate_ledger_report db a sd ed).ledger_entries.map
            (fun r => (r.date, r.entry_number, r.debit, r.credit))) := by
        rw [hrows, hmap, List.pairwise_map]
        refine hsorted.imp ?_
        intro p q hpq
        exact (entryKeyLe_iff p.2 q.2).mp hpq
      rw [List.pairwise_map] at hK
      exact hK
    · intro i h
      have hlen : i < ((ledgerLoop a.account_type
          (if a.opening_balance_type = .debit then a.opening_balance
           else -a.opening_balance) (ledgerJoin db a sd ed)).1).length := by
        rw [← hrows]; exact h
      have hbal := ledgerLoop_balance a.account_type (ledgerJoin db a sd ed)
        (if a.opening_balance_type = .debit then a.opening_balance
         else -a.opening_balance) i hlen
      have hdelta : (generate_ledger_report db a sd ed).ledger_entries.map
          (rowDelta a.account_type) =
          (ledgerJoin db a sd ed).map
            (fun p => ledgerDelta a.account_type p.1) := by
        have : (generate_ledger_report db a sd ed).ledger_entries.map
            (rowDelta a.account_type) =
            ((generate_ledger_report db a sd ed).ledger_entries.map
              (fun r => (r.date, r.entry_number, r.debit, r.credit))).map
              (fun x : Date × String × Amount × Amount =>
                if a.account_type.isDebitNormal then x.2.2.1 - x.2.2.2
                else x.2.2.2 - x.2.2.1) := by
          rw [List.map_map]; rfl
        rw [this, hrows, hmap, List.map_map]; rfl
      calc ((generate_ledger_report db a sd ed).ledger_entries.get ⟨i, h⟩).balance
          = (if a.opening_balance_type = .debit then a.opening_balance
             else -a.opening_balance) +
              (((ledgerJoin db a sd ed).take (i + 1)).map
                (fun p => ledgerDelta a.account_type p.1)).sum := hbal
        _ = (if a.opening_balance_type = .debit then a.opening_balance
             else -a.opening_balance) +
              (((generate_ledger_report db a sd ed).ledger_entries.take (i + 1)).map
                (rowDelta a.account_type)).sum := by
              rw [List.map_take, List.map_take, hdelta]
    · have hfin := ledgerLoop_final a.account_type (ledgerJoin db a sd ed)
        (if a.opening_balance_type = .debit then a.opening_balance
         else -a.opening_balance)
      have hdelta : (generate_ledger_report db a sd ed).ledger_entries.map
          (rowDelta a.account_type) =
          (ledgerJoin db a sd ed).map
            (fun p => ledgerDelta a.account_type p.1) := by
        have : (generate_ledger_report db a sd ed).ledger_entries.map
            (rowDelta a.account_type) =
            ((generate_ledger_report db a sd ed).ledger_entries.map
              (fun r => (r.date, r.entry_number, r.debit, r.credit))).map
              (fun x : Date × String × Amount × Amount =>
                if a.account_type.isDebitNormal then x.2.2.1 - x.2.2.2
                else x.2.2.2 - x.2.2.1) := by
          rw [List.map_map]; rfl
        rw [this, hrows, hmap, List.map_map]; rfl
      rw [hdelta]
      exact hfin
  · have hj : ledgerJoin dbLed accLed none none = [pairA, pairB] := by decide
    constructor <;>
      norm_num [generate_ledger_report, hj, ledgerLoop, ledgerDelta, pairA,
        pairB, accLed, AccountType.isDebitNormal]

/-- The numeric value of a padded digit character. -/
theorem natDigitChar_toNat (n : ℕ) : (natDigitChar n).toNat = 48 + n % 10 := by
  have h : n % 10 < 10 := Nat.mod_lt _ (by norm_num)
  unfold natDigitChar
  set r := n % 10 with hr
  interval_cases r <;> rfl

/-- Byte-wise comparison ignores a common prefix. -/
theorem lexLeB_append_left : ∀ (p a b : List Char),
    lexLeB (p ++ a) (p ++ b) = lexLeB a b := by
  intro p
  induction p with
  | nil => intro a b; rfl
  | cons c cs ih =>
    intro a b
    simp [lexLeB, Nat.lt_irrefl, ih]

/-- Byte-wise order on equal-width zero-padded digit strings is the
numeric order of the (suitably truncated) numbers they denote. -/
theorem lexLeB_padDigits : ∀ (k m n : ℕ),
    (lexLeB (padDigits k m) (padDigits k n) = true) ↔
      m % 10 ^ k ≤ n % 10 ^ k := by
  intro k
  induction k with
  | zero =>
    intro m n
    simp [padDigits, lexLeB, Nat.mod_one]
  | succ k ih =>
    intro m n
    have hP : 0 < 10 ^ k := Nat.pos_pow_of_pos k (by norm_num)
    have hrm : m % 10 ^ k < 10 ^ k := Nat.mod_lt _ hP
    have hrn : n % 10 ^ k < 10 ^ k := Nat.mod_lt _ hP
    have hm : m % 10 ^ (k + 1) = m % 10 ^ k + 10 ^ k * (m / 10 ^ k % 10) := by
      rw [pow_succ, Nat.mod_mul]
    have hn : n % 10 ^ (k + 1) = n % 10 ^ k + 10 ^ k * (n / 10 ^ k % 10) := by
      rw [pow_succ, Nat.mod_mul]
    simp only [padDigits, lexLeB, natDigitChar_toNat]
    rcases Nat.lt_trichotomy (m / 10 ^ k % 10) (n / 10 ^ k % 10) with hd | hd | hd
    · rw [if_pos (by omega)]
      simp only [true_iff]
      rw [hm, hn]
      refine Nat.le_of_lt ?_
      calc m % 10 ^ k + 10 ^ k * (m / 10 ^ k % 10)
          < 10 ^ k + 10 ^ k * (m / 10 ^ k % 10) :=
            Nat.add_lt_add_right hrm _
        _ = 10 ^ k * (m / 10 ^ k % 10 + 1) := by ring
        _ ≤ 10 ^ k * (n / 10 ^ k % 10) := Nat.mul_le_mul_left _ hd
        _ ≤ n % 10 ^ k + 10 ^ k * (n / 10 ^ k % 10) := Nat.le_add_left _ _
    · rw [if_neg (by omega), if_neg (by omega)]
      rw [ih, hm, hn, hd]
      omega
    · rw [if_neg (by omega), if_pos (by omega)]
      simp only [Bool.false_eq_true, false_iff, not_le]
      rw [hm, hn]
      calc n % 10 ^ k + 10 ^ k * (n / 10 ^ k % 10)
          < 10 ^ k + 10 ^ k * (n / 10 ^ k % 10) :=
            Nat.add_lt_add_right hrn _
        _ = 10 ^ k * (n / 10 ^ k % 10 + 1) := by ring
        _ ≤ 10 ^ k * (m / 10 ^ k % 10) := Nat.mul_le_mul_left _ hd
        _ ≤ m % 10 ^ k + 10 ^ k * (m / 10 ^ k % 10) := Nat.le_add_left _ _

/-- Folding the digit parser over a padded digit string. -/
theorem toNatDigits_padDigits_general : ∀ (k a n : ℕ),
    (padDigits k n).foldl (fun a c => a * 10 + (c.toNat - 48)) a =
      a * 10 ^ k + n % 10 ^ k := by
  intro k
  induction k with
  | zero => intro a n; simp [padDigits, Nat.mod_one]
  | succ k ih =>
    intro a n
    have hstep : (natDigitChar (n / 10 ^ k)).toNat - 48 = n / 10 ^ k % 10 := by
      rw [natDigitChar_toNat]
      omega
    have hn : n % 10 ^ (k + 1) = n % 10 ^ k + 10 ^ k * (n / 10 ^ k % 10) := by
      rw [pow_succ, Nat.mod_mul]
    simp only [padDigits, List.foldl_cons, hstep, ih]
    rw [hn]
    ring

/-- `int()` inverts `%06d` below `10^6`. -/
theorem toNatDigits_padDigits (n : ℕ) (h : n < 1000000) :
    toNatDigits (padDigits 6 n) = n := by
  have := toNatDigits_padDigits_general 6 0 n
  rw [toNatDigits, this, Nat.zero_mul, Nat.zero_add, Nat.mod_eq_of_lt]
  exact h

/-- The collation-strict-less test on two prefix-padded entry numbers is
the numeric order of their sequences. -/
theorem strLt_pad (p : String) (m n : ℕ) (hm : m < 1000000)
    (hn : n < 1000000) :
    strLt (p ++ (⟨padDigits 6 m⟩ : String)) (p ++ (⟨padDigits 6 n⟩ : String)) =
      true ↔ m < n := by
  show (!lexLeB (p.data ++ padDigits 6 n) (p.data ++ padDigits 6 m)) = true ↔ m < n
  rw [Bool.not_eq_true']
  constructor
  · intro h
    by_contra hc
    push_neg at hc
    have : lexLeB (p.data ++ padDigits 6 n) (p.data ++ padDigits 6 m) = true := by
      rw [lexLeB_append_left, lexLeB_padDigits,
        show (10 : ℕ) ^ 6 = 1000000 from by norm_num,
        Nat.mod_eq_of_lt hn, Nat.mod_eq_of_lt hm]
      exact hc
    rw [this] at h
    exact Bool.noConfusion h
  · intro h
    rw [lexLeB_append_left]
    cases hb : lexLeB (padDigits 6 n) (padDigits 6 m) with
    | false => rfl
    | true =>
      rw [lexLeB_padDigits, show (10 : ℕ) ^ 6 = 1000000 from by norm_num,
        Nat.mod_eq_of_lt hn, Nat.mod_eq_of_lt hm] at hb
      omega

/-- The fold implementing `order_by('-entry_number').first()` over
prefix-padded entry numbers selects the (numeric) maximum sequence. -/
theorem foldl_maxStr_pad (p : String) : ∀ (ns : List ℕ) (n0 : ℕ),
    n0 ≤ 999999 → (∀ x ∈ ns, x ≤ 999999) →
    (ns.map (fun n => p ++ (⟨padDigits 6 n⟩ : String))).foldl
        (fun acc t => if strLt acc t then t else acc)
        (p ++ (⟨padDigits 6 n0⟩ : String)) =
      p ++ (⟨padDigits 6 (ns.foldl max n0)⟩ : String) := by
  intro ns
  induction ns with
  | nil => intro n0 _ _; rfl
  | cons m ms ih =>
    intro n0 h0 hall
    have hm : m ≤ 999999 := hall m (List.mem_cons_self m ms)
    have hms : ∀ x ∈ ms, x ≤ 999999 := fun x hx =>
      hall x (List.mem_cons_of_mem m hx)
    simp only [List.map_cons, List.foldl_cons]
    by_cases hlt : n0 < m
    · have : strLt (p ++ (⟨padDigits 6 n0⟩ : String))
          (p ++ (⟨padDigits 6 m⟩ : String)) = true :=
        (strLt_pad p n0 m (by omega) (by omega)).mpr hlt
      rw [this, if_pos rfl, ih m hm hms, Nat.max_eq_right (Nat.le_of_lt hlt)]
    · have : strLt (p ++ (⟨padDigits 6 n0⟩ : String))
          (p ++ (⟨padDigits 6 m⟩ : String)) = false := by
        cases hb : strLt (p ++ (⟨padDigits 6 n0⟩ : String))
            (p ++ (⟨padDigits 6 m⟩ : String)) with
        | false => rfl
        | true => exact absurd ((strLt_pad p n0 m (by omega) (by omega)).mp hb) hlt
      rw [this]
      simp only [Bool.false_eq_true, if_false]
      rw [ih n0 h0 hms, Nat.max_eq_left (Nat.not_lt.mp hlt)]

/-- Left fold of `max` in terms of the right fold from 0. -/
theorem foldl_max_eq_foldr (ns : List ℕ) : ∀ n0 : ℕ,
    ns.foldl max n0 = max n0 (ns.foldr max 0) := by
  induction ns with
  | nil => intro n0; simp
  | cons m ms ih =>
    intro n0
    simp only [List.foldl_cons, List.foldr_cons, ih (max n0 m)]
    rw [Nat.max_assoc]

/-- A left `max`-fold stays below any common bound. -/
theorem foldl_max_le (B : ℕ) : ∀ (ns : List ℕ) (n0 : ℕ),
    n0 ≤ B → (∀ x ∈ ns, x ≤ B) → ns.foldl max n0 ≤ B := by
  intro ns
  induction ns with
  | nil => intro n0 h0 _; exact h0
  | cons m ms ih =>
    intro n0 h0 hall
    simp only [List.foldl_cons]
    exact ih (max n0 m)
      (Nat.max_le.mpr ⟨h0, hall m (List.mem_cons_self m ms)⟩)
      (fun x hx => hall x (List.mem_cons_of_mem m hx))

/-- C5: when an entry number is allocated (the entry's number is still
empty) and every existing entry number with the prefix
`JE<start year>` is that prefix followed by a 6-digit zero-padded
sequence at most 999998, the generated number is the prefix followed by
the 6-digit zero-padded successor of the highest existing sequence (or
sequence 1 when no entry with the prefix exists). -/
theorem c5_generate_entry_number :
    ∀ (e : JournalEntry) (fy : FiscalYear) (db : DB) (ns : List ℕ),
      e.entry_number = "" →
      (db.entries.map (·.entry_number)).filter
          (fun s => strStartsWith s ("JE" ++ toString fy.start_date.year)) =
        ns.map (fun n => "JE" ++ toString fy.start_date.year ++
          (⟨padDigits 6 n⟩ : String)) →
      (∀ n ∈ ns, n ≤ 999998) →
      (e.generate_entry_number fy db).entry_number =
        "JE" ++ toString fy.start_date.year ++
          (⟨padDigits 6 (specNextSeq ns)⟩ : String) := by
  intro e fy db ns hnum hfilter hbound
  unfold JournalEntry.generate_entry_number
  rw [if_neg (by simp [hnum])]
  simp only [hfilter]
  cases ns with
  | nil =>
    simp only [List.map_nil, maxStr?]
    rw [show fmt06 1 = (⟨padDigits 6 1⟩ : String) from by norm_num [fmt06],
      specNextSeq, String.append_assoc]
  | cons n0 rest =>
    have h0 : n0 ≤ 999998 := hbound n0 (List.mem_cons_self n0 rest)
    have hrest : ∀ x ∈ rest, x ≤ 999998 := fun x hx =>
      hbound x (List.mem_cons_of_mem n0 hx)
    have hM : rest.foldl max n0 ≤ 999998 :=
      foldl_max_le 999998 rest n0 h0 hrest
    simp only [List.map_cons, maxStr?]
    rw [foldl_maxStr_pad ("JE" ++ toString fy.start_date.year) rest n0
      (by omega) (fun x hx => by have := hrest x hx; omega)]
    have hdrop : ((("JE" ++ toString fy.start_date.year) ++
        (⟨padDigits 6 (rest.foldl max n0)⟩ : String)).data.drop
          ("JE" ++ toString fy.start_date.year).length) =
        padDigits 6 (rest.foldl max n0) := by
      show ((("JE" ++ toString fy.start_date.year).data ++
        padDigits 6 (rest.foldl max n0)).drop
          ("JE" ++ toString fy.start_date.year).data.length) = _
      exact List.drop_left _ _
    rw [hdrop, toNatDigits_padDigits (rest.foldl max n0) (by omega)]
    rw [show fmt06 (rest.foldl max n0 + 1) =
        (⟨padDigits 6 (rest.foldl max n0 + 1)⟩ : String) from by
          rw [fmt06, if_pos (by omega)]]
    rw [show specNextSeq (n0 :: rest) = rest.foldl max n0 + 1 from by
      have h1 : specNextSeq (n0 :: rest) = (n0 :: rest).foldr max 0 + 1 := rfl
      rw [h1, List.foldr_cons, foldl_max_eq_foldr]]

/-- C5 witness: on a database whose JE2025 prefix holds sequences 3 and
7 (and an unrelated JE2024 number), the allocated number is
JE2025000008. -/
theorem c5_witness :
    (entryNew.generate_entry_number fyA dbNum).entry_number = "JE2025000008" := by
  have h := c5_generate_entry_number entryNew fyA dbNum [3, 7] rfl
    (by decide) (by decide)
  rw [h]
  decide

/-- C10 counterexample: calling `create_default_accounts` a second time
for a tenant that already holds the bootstrap chart does not succeed —
the very first `Account.objects.create` (code 1000) violates the
`(school, code)` uniqueness constraint, raises `IntegrityError`, and
the atomic transaction rolls back. -/
theorem c10_counterexample :
    create_default_accounts dbChart 0 =
      .error (.integrityError "UNIQUE constraint failed: accounting_account") := by
  rfl

/-- C10 amended: `create_default_accounts` is not idempotent.  A single
call on an empty database succeeds and creates exactly the standard
26-account chart (the listed codes, in order); but a second call for
the same tenant — in general, any call for a tenant already holding an
account with code 1000 or name Assets — fails with `IntegrityError`
and creates nothing (rollback), leaving the chart of a prior call
unchanged rather than duplicated. -/
theorem c10_amended_not_idempotent :
    (chartResult = .ok (dbChart, chartMap)) ∧
    (chartMap.map (·.1) =
      ["1000", "1100", "1110", "1200", "1300", "1500",
       "2000", "2100", "2200", "2300", "2400",
       "3000", "3100", "3200",
       "4000", "4100", "4200", "4300", "4400",
       "5000", "5100", "5200", "5300", "5400", "5500", "5600"]) ∧
    (dbChart.accounts.length = 26) ∧
    (∀ (db : DB) (school : ℕ),
      (∃ a ∈ db.accounts, a.school = school ∧
        (a.code = "1000" ∨ a.name = "Assets")) →
      ∀ r, create_default_accounts db school ≠ .ok r) ∧
    (create_default_accounts dbChart 0 =
      .error (.integrityError "UNIQUE constraint failed: accounting_account")) := by
  refine ⟨by rfl, by decide, by decide, ?_, by rfl⟩
  rintro db school ⟨a, hmem, hsch, hdup⟩ r h
  have hany : db.accounts.any (fun o =>
      o.school == school && (o.code == "1000" || o.name == "Assets")) = true := by
    refine List.any_eq_true.mpr ⟨a, hmem, ?_⟩
    rcases hdup with hc | hn
    · simp [hsch, hc]
    · simp [hsch, hn]
  rw [create_default_accounts,
    show defaultAccountsData =
      (⟨"1000", "Assets", "الأصول", .asset, none⟩ : DefaultAccountRow) ::
        defaultAccountsData.tail from rfl,
    createDefaultsLoop] at h
  simp only [djangoCreateAccount, hany] at h
  rw [if_pos trivial] at h
  exact Except.noConfusion h

/-- C10 witness: instantiating the non-idempotence part at the
concrete chart database: the second call returns no result. -/
theorem c10_witness :
    ∀ r, create_default_accounts dbChart 0 ≠ .ok r :=
  c10_amended_not_idempotent.2.2.2.1 dbChart 0
    ⟨dbChart.accounts.head (by decide), by decide, by decide, by decide⟩

/-- C7 witness: instantiating the report theorem on the scenario
database, the second row's balance is the seed plus both increments. -/
theorem c7_witness :
    ((generate_ledger_report dbLed accLed none none).ledger_entries.get
        ⟨1, by decide⟩).balance =
      (if accLed.opening_balance_type = .debit then accLed.opening_balance
       else -accLed.opening_balance) +
        (((generate_ledger_report dbLed accLed none none).ledger_entries.take 2).map
          (rowDelta accLed.account_type)).sum :=
  (c7_ledger_report.1 dbLed accLed none none).2.2.2.1 1 (by decide)

end Accounting
